import Mathlib

/-!
Verification of the sustainability-packaging app (`streamlit_app.py`).

Real numbers of the Python source are modelled as rationals (`ℚ`), so all
arithmetic claims are exact; Python strings are Lean `String`s (both are
sequences of Unicode code points).  Side effects of the UI (showing an error,
rendering a view, appending to the session chat log) are modelled as explicit
fields of returned values.
-/

namespace StreamlitApp

/-- The static emission-factor table of `estimate_carbon_footprint`
(kg CO2e per kg of material), in source order. -/
def material_factors : List (String × ℚ) :=
  [("Plastic", 2.5),
   ("Glass", 1.2),
   ("Aluminum", 10.0),
   ("Paper", 1.0),
   ("Bioplastic", 1.5),
   ("Compostable", 1.2),
   ("Other", 2.0)]

/-- `material_factors.get(material, 2.0)`: total lookup with default 2.0. -/
def material_factor_of (material : String) : ℚ :=
  (material_factors.lookup material).getD 2.0

/-- `transport_factor = 0.1 / 1000` (0.1 kg CO2e per ton-km, per gram-km). -/
def transport_factor : ℚ := 0.1 / 1000

/-- Result triple of `estimate_carbon_footprint`:
(material_emissions, transport_emissions, total_emissions). -/
structure EmissionsResult where
  material_emissions : ℚ
  transport_emissions : ℚ
  total_emissions : ℚ
  deriving Repr, DecidableEq

/-- `estimate_carbon_footprint(material, weight, distance)` from the source:
factor lookup with default 2.0, grams→kg conversion for material emissions,
`weight * distance * transport_factor` for transport, and their sum. -/
def estimate_carbon_footprint (material : String) (weight distance : ℚ) :
    EmissionsResult :=
  let material_factor := material_factor_of material
  let material_emissions := (weight / 1000) * material_factor
  let transport_emissions := weight * distance * transport_factor
  let total_emissions := material_emissions + transport_emissions
  { material_emissions := material_emissions
    transport_emissions := transport_emissions
    total_emissions := total_emissions }

/-- Every factor the table can yield (including the default) is positive. -/
theorem material_factor_of_pos (material : String) :
    0 < material_factor_of material := by
  unfold material_factor_of material_factors
  simp only [List.lookup]
  repeat' split
  all_goals simp_all
  all_goals norm_num

/-- The transport factor `0.1 / 1000` is exactly `0.0001`. -/
theorem transport_factor_eq : transport_factor = 0.0001 := by
  norm_num [transport_factor]

/-- C1: for every material in the emission-factor table with its listed factor
and all weights and distances, the estimator returns
`materialEmissionsKg = (weightGrams / 1000) * factor` and
`transportEmissionsKg = weightGrams * transportDistanceKm * 0.0001`. -/
theorem estimate_tabulated_material_exact (material : String) (factor : ℚ)
    (h : (material, factor) ∈ material_factors) (weight distance : ℚ) :
    (estimate_carbon_footprint material weight distance).material_emissions
      = (weight / 1000) * factor ∧
    (estimate_carbon_footprint material weight distance).transport_emissions
      = weight * distance * 0.0001 := by
  have hf : material_factor_of material = factor := by
    simp only [material_factors, List.mem_cons, List.not_mem_nil, or_false,
      Prod.mk.injEq] at h
    rcases h with ⟨rfl, rfl⟩ | ⟨rfl, rfl⟩ | ⟨rfl, rfl⟩ | ⟨rfl, rfl⟩ |
      ⟨rfl, rfl⟩ | ⟨rfl, rfl⟩ | ⟨rfl, rfl⟩ <;>
      simp [material_factor_of, material_factors, List.lookup]
  refine ⟨?_, ?_⟩
  · simp [estimate_carbon_footprint, hf]
  · simp [estimate_carbon_footprint, transport_factor_eq]

/-- Witness for C1 at material = "Plastic", weight = 500 g, distance = 100 km. -/
theorem estimate_tabulated_material_exact_witness :
    (estimate_carbon_footprint "Plastic" 500 100).material_emissions
      = (500 / 1000) * 2.5 ∧
    (estimate_carbon_footprint "Plastic" 500 100).transport_emissions
      = 500 * 100 * 0.0001 :=
  estimate_tabulated_material_exact "Plastic" 2.5 (List.Mem.head _) 500 100

/-- C2: for every material string and all weights and distances the result
satisfies `totalEmissionsKg = materialEmissionsKg + transportEmissionsKg`
exactly, and under non-negative inputs all three fields are non-negative. -/
theorem estimate_total_invariant_and_nonneg (material : String)
    (weight distance : ℚ) :
    (estimate_carbon_footprint material weight distance).total_emissions
      = (estimate_carbon_footprint material weight distance).material_emissions
        + (estimate_carbon_footprint material weight distance).transport_emissions
    ∧ (0 ≤ weight → 0 ≤ distance →
        0 ≤ (estimate_carbon_footprint material weight distance).material_emissions
        ∧ 0 ≤ (estimate_carbon_footprint material weight distance).transport_emissions
        ∧ 0 ≤ (estimate_carbon_footprint material weight distance).total_emissions) := by
  have hfac : 0 < material_factor_of material := material_factor_of_pos material
  have htf : (0 : ℚ) ≤ transport_factor := by norm_num [transport_factor]
  refine ⟨rfl, fun hw hd => ?_⟩
  have h1 : 0 ≤ (weight / 1000) * material_factor_of material :=
    mul_nonneg (by positivity) hfac.le
  have h2 : 0 ≤ weight * distance * transport_factor :=
    mul_nonneg (mul_nonneg hw hd) htf
  exact ⟨h1, h2, add_nonneg h1 h2⟩

/-- Witness for C2 at material = "Glass", weight = 10, distance = 5. -/
theorem estimate_total_invariant_and_nonneg_witness :
    (0 : ℚ) ≤ 10 ∧ (0 : ℚ) ≤ 5 ∧
    ((estimate_carbon_footprint "Glass" 10 5).total_emissions
      = (estimate_carbon_footprint "Glass" 10 5).material_emissions
        + (estimate_carbon_footprint "Glass" 10 5).transport_emissions) ∧
    (0 ≤ (estimate_carbon_footprint "Glass" 10 5).material_emissions
      ∧ 0 ≤ (estimate_carbon_footprint "Glass" 10 5).transport_emissions
      ∧ 0 ≤ (estimate_carbon_footprint "Glass" 10 5).total_emissions) :=
  ⟨by norm_num, by norm_num,
   (estimate_total_invariant_and_nonneg "Glass" 10 5).1,
   (estimate_total_invariant_and_nonneg "Glass" 10 5).2
     (by norm_num) (by norm_num)⟩

/-- A string absent from the table's keys looks up to `none`. -/
theorem lookup_eq_none_of_not_mem_keys (material : String)
    (h : material ∉ material_factors.map Prod.fst) :
    material_factors.lookup material = none := by
  simp only [material_factors, List.map, List.mem_cons, List.not_mem_nil,
    or_false, not_or] at h
  obtain ⟨h1, h2, h3, h4, h5, h6, h7⟩ := h
  simp [material_factors, List.lookup, beq_eq_false_iff_ne.mpr h1,
    beq_eq_false_iff_ne.mpr h2, beq_eq_false_iff_ne.mpr h3,
    beq_eq_false_iff_ne.mpr h4, beq_eq_false_iff_ne.mpr h5,
    beq_eq_false_iff_ne.mpr h6, beq_eq_false_iff_ne.mpr h7]

/-- C3: for every material string not among the table's keys, the estimator
returns exactly the same triple as for material = "Other" (factor 2.0). -/
theorem estimate_unknown_material_as_other (material : String)
    (h : material ∉ material_factors.map Prod.fst) (weight distance : ℚ) :
    estimate_carbon_footprint material weight distance
      = estimate_carbon_footprint "Other" weight distance := by
  have h1 : material_factor_of material = 2.0 := by
    simp [material_factor_of, lookup_eq_none_of_not_mem_keys material h]
  have h2 : material_factor_of "Other" = 2.0 := by
    simp [material_factor_of, material_factors, List.lookup]
  simp [estimate_carbon_footprint, h1, h2]

/-- Witness for C3 at material = "Unknown-XYZ", weight = 1000, distance = 10. -/
theorem estimate_unknown_material_as_other_witness :
    "Unknown-XYZ" ∉ (material_factors.map Prod.fst) ∧
    estimate_carbon_footprint "Unknown-XYZ" 1000 10
      = estimate_carbon_footprint "Other" 1000 10 :=
  ⟨by simp [material_factors], by
    exact estimate_unknown_material_as_other "Unknown-XYZ"
      (by simp [material_factors]) 1000 10⟩

/-- C4: the estimator is a total function; at `weight = 0` both emission terms
(and the total) are exactly 0, and at `distance = 0` the transport term is
exactly 0 — no division error can occur (division is only by the constant
1000). -/
theorem estimate_zero_boundary (material : String) (weight distance : ℚ) :
    (estimate_carbon_footprint material 0 distance).material_emissions = 0
    ∧ (estimate_carbon_footprint material 0 distance).transport_emissions = 0
    ∧ (estimate_carbon_footprint material 0 distance).total_emissions = 0
    ∧ (estimate_carbon_footprint material weight 0).transport_emissions = 0 := by
  simp [estimate_carbon_footprint]

/-- C10: with non-negative inputs, each of the three outputs is monotone
non-decreasing in the weight (distance fixed) and in the distance (weight
fixed). -/
theorem estimate_monotone (material : String) (w w' d d' : ℚ)
    (hw : 0 ≤ w) (hww : w ≤ w') (hd : 0 ≤ d) (hdd : d ≤ d') :
    (estimate_carbon_footprint material w d).material_emissions
      ≤ (estimate_carbon_footprint material w' d).material_emissions
    ∧ (estimate_carbon_footprint material w d).transport_emissions
      ≤ (estimate_carbon_footprint material w' d).transport_emissions
    ∧ (estimate_carbon_footprint material w d).total_emissions
      ≤ (estimate_carbon_footprint material w' d).total_emissions
    ∧ (estimate_carbon_footprint material w d).material_emissions
      ≤ (estimate_carbon_footprint material w d').material_emissions
    ∧ (estimate_carbon_footprint material w d).transport_emissions
      ≤ (estimate_carbon_footprint material w d').transport_emissions
    ∧ (estimate_carbon_footprint material w d).total_emissions
      ≤ (estimate_carbon_footprint material w d').total_emissions := by
  have hfac : (0 : ℚ) ≤ material_factor_of material :=
    (material_factor_of_pos material).le
  have htf : (0 : ℚ) ≤ transport_factor := by norm_num [transport_factor]
  have hmw : (w / 1000) * material_factor_of material
      ≤ (w' / 1000) * material_factor_of material :=
    mul_le_mul_of_nonneg_right (by linarith) hfac
  have htw : w * d * transport_factor ≤ w' * d * transport_factor :=
    mul_le_mul_of_nonneg_right (mul_le_mul_of_nonneg_right hww hd) htf
  have htd : w * d * transport_factor ≤ w * d' * transport_factor :=
    mul_le_mul_of_nonneg_right (mul_le_mul_of_nonneg_left hdd hw) htf
  exact ⟨hmw, htw, add_le_add hmw htw, le_refl _, htd,
    add_le_add (le_refl _) htd⟩

/-- Witness for C10 at material = "Paper", weights 1 ≤ 2, distances 3 ≤ 4. -/
theorem estimate_monotone_witness :
    (0 : ℚ) ≤ 1 ∧ (1 : ℚ) ≤ 2 ∧ (0 : ℚ) ≤ 3 ∧ (3 : ℚ) ≤ 4 ∧
    ((estimate_carbon_footprint "Paper" 1 3).total_emissions
      ≤ (estimate_carbon_footprint "Paper" 2 3).total_emissions) ∧
    ((estimate_carbon_footprint "Paper" 1 3).total_emissions
      ≤ (estimate_carbon_footprint "Paper" 1 4).total_emissions) :=
  ⟨by norm_num, by norm_num, by norm_num, by norm_num,
   (estimate_monotone "Paper" 1 2 3 4 (by norm_num) (by norm_num)
     (by norm_num) (by norm_num)).2.2.1,
   (estimate_monotone "Paper" 1 2 3 4 (by norm_num) (by norm_num)
     (by norm_num) (by norm_num)).2.2.2.2.2⟩

/-! ### Prompt builders -/

/-- The fixed text of the ESG-summary prompt that precedes the embedded
report text (the concatenated string literals of
`summarize_and_benchmark_esg` up to the embedding point). -/
def esg_prompt_head : String :=
  "Below is the extracted text from a company's ESG report. Please provide:\n1. A concise summary of the company's ESG performance.\n2. A benchmarking analysis compared to industry standards or leaders (if possible).\n3. Key recommendations for improvement.\nHere is the ESG report:\n-----\n"

/-- The fixed text following the embedded report text. -/
def esg_prompt_tail : String := "\n-----\n"

/-- The prompt built by `summarize_and_benchmark_esg`: the fixed head, then
`text[:3500]` (Python slicing by code points = `String.take`), then the
closing delimiter line. -/
def summarize_and_benchmark_esg_prompt (text : String) : String :=
  esg_prompt_head ++ text.take 3500 ++ esg_prompt_tail

/-- C5: the ESG prompt embeds exactly the first 3500 characters of the report
text (a hard character cut), the embedded segment never exceeds 3500
characters, and a report of at most 3500 characters is embedded unchanged. -/
theorem esg_prompt_embeds_first_3500 (text : String) :
    summarize_and_benchmark_esg_prompt text
      = esg_prompt_head ++ String.take text 3500 ++ esg_prompt_tail
    ∧ (String.take text 3500).data = text.data.take 3500
    ∧ (String.take text 3500).length ≤ 3500
    ∧ (text.length ≤ 3500 →
        summarize_and_benchmark_esg_prompt text
          = esg_prompt_head ++ text ++ esg_prompt_tail) := by
  refine ⟨rfl, String.data_take text 3500, ?_, fun h => ?_⟩
  · have h1 : (String.take text 3500).length = (text.data.take 3500).length := by
      rw [String.take_eq]
      rfl
    rw [h1, List.length_take]
    exact min_le_left _ _
  · have htake : String.take text 3500 = text := by
      rw [String.take_eq, List.take_of_length_le h]
    rw [summarize_and_benchmark_esg_prompt, htake]

/-- Witness for C5 at the three-character report text "ESG". -/
theorem esg_prompt_embeds_first_3500_witness :
    ("ESG" : String).length ≤ 3500 ∧
    summarize_and_benchmark_esg_prompt "ESG"
      = esg_prompt_head ++ "ESG" ++ esg_prompt_tail :=
  ⟨by decide, (esg_prompt_embeds_first_3500 "ESG").2.2.2 (by decide)⟩

/-- The conditional expression rendering a boolean input flag in the
sustainability-assessment prompt (Python `'Yes' if flag else 'No'`). -/
def yes_no (flag : Bool) : String := if flag then "Yes" else "No"

/-- The prompt built by `ai_sustainability_assessment` from the structured
form inputs. -/
def ai_sustainability_assessment_prompt (material : String) (weight : ℚ)
    (recyclable renewable : Bool) : String :=
  "Packaging parameters:\n- Material: " ++ material
    ++ "\n- Weight: " ++ toString weight ++ " grams\n- Recyclable: "
    ++ yes_no recyclable
    ++ "\n- Made from renewable resources: " ++ yes_no renewable
    ++ "\n\nBased on these, provide:\n1. A sustainability score out of 10 (with justification).\n2. A brief assessment and recommendations for improvement."

/-- C9: the assessment prompt renders each boolean flag as the literal
"Yes" when true and "No" when false (never "true"/"false" or any other
representation), inside the fixed template with material and weight. -/
theorem assessment_prompt_flag_rendering (material : String) (weight : ℚ)
    (recyclable renewable : Bool) :
    ai_sustainability_assessment_prompt material weight recyclable renewable
      = "Packaging parameters:\n- Material: " ++ material
        ++ "\n- Weight: " ++ toString weight ++ " grams\n- Recyclable: "
        ++ yes_no recyclable
        ++ "\n- Made from renewable resources: " ++ yes_no renewable
        ++ "\n\nBased on these, provide:\n1. A sustainability score out of 10 (with justification).\n2. A brief assessment and recommendations for improvement."
    ∧ yes_no true = "Yes" ∧ yes_no false = "No"
    ∧ (yes_no recyclable = "Yes" ∨ yes_no recyclable = "No")
    ∧ (yes_no renewable = "Yes" ∨ yes_no renewable = "No")
    ∧ yes_no recyclable ≠ "true" ∧ yes_no recyclable ≠ "false"
    ∧ yes_no renewable ≠ "true" ∧ yes_no renewable ≠ "false" := by
  refine ⟨rfl, rfl, rfl, ?_, ?_, ?_, ?_, ?_, ?_⟩ <;>
    cases recyclable <;> cases renewable <;> decide

/-! ### `main` around the missing-key check -/

/-- Which parts of the page `main` renders, and whether the missing-key error
is shown.  `st.stop()` aborts the script run, so nothing after it renders. -/
structure MainRender where
  config_error_shown : Bool
  chat_tab_rendered : Bool
  esg_tab_rendered : Bool
  score_tab_rendered : Bool
  estimator_tab_rendered : Bool
  deriving Repr, DecidableEq

/-- Python truthiness of `GROQ_API_KEY` in `if not GROQ_API_KEY:`:
`None` (unset variable) and the empty string are falsy. -/
def api_key_missing : Option String → Bool
  | none => true
  | some s => s.isEmpty

/-- `main` around the key check: after `st.error(...)` the script executes
`st.stop()`, so all four tab bodies — the chat, the ESG analyzer, the score
calculator AND the carbon-footprint estimator — are skipped; with a key
present all four tab bodies run. -/
def main_render (api_key : Option String) : MainRender :=
  if api_key_missing api_key then
    { config_error_shown := true
      chat_tab_rendered := false
      esg_tab_rendered := false
      score_tab_rendered := false
      estimator_tab_rendered := false }
  else
    { config_error_shown := false
      chat_tab_rendered := true
      esg_tab_rendered := true
      score_tab_rendered := true
      estimator_tab_rendered := true }

/-- C6 counterexample: with the key unset, a visible error is shown but the
emissions-estimator tab body is NOT rendered (`st.stop()` halts the whole
script before any tab body, the estimator included), refuting the claim that
the estimator view remains usable. -/
theorem main_render_missing_key_counterexample :
    ¬ (api_key_missing none = true →
        (main_render none).config_error_shown = true ∧
        (main_render none).estimator_tab_rendered = true) := by decide

/-- C6 amended: when the gateway API key is missing (unset or empty), a
visible error is shown and the script is stopped, so no view at all —
including the emissions estimator, despite its having no API-key
dependency — is rendered for that run. -/
theorem main_render_missing_key_halts_everything (api_key : Option String)
    (h : api_key_missing api_key = true) :
    (main_render api_key).config_error_shown = true
    ∧ (main_render api_key).chat_tab_rendered = false
    ∧ (main_render api_key).esg_tab_rendered = false
    ∧ (main_render api_key).score_tab_rendered = false
    ∧ (main_render api_key).estimator_tab_rendered = false := by
  simp [main_render, h]

/-- Witness for the amended C6 at an unset key. -/
theorem main_render_missing_key_halts_everything_witness :
    api_key_missing none = true ∧
    ((main_render none).config_error_shown = true
      ∧ (main_render none).chat_tab_rendered = false
      ∧ (main_render none).esg_tab_rendered = false
      ∧ (main_render none).score_tab_rendered = false
      ∧ (main_render none).estimator_tab_rendered = false) :=
  ⟨rfl, main_render_missing_key_halts_everything none rfl⟩

/-! ### `ask_groq` and the chat turn -/

/-- One entry of the session chat log. -/
structure ChatMessage where
  role : String
  content : String
  deriving Repr, DecidableEq

/-- Outcome of the HTTP POST inside `ask_groq`. -/
inductive GatewayOutcome where
  /-- transport or timeout failure: `requests.post` raises. -/
  | transport_failure
  /-- non-2xx status: `raise_for_status()` raises with status and body. -/
  | http_error (status : Nat) (body : String)
  /-- 2xx but the JSON lacks `choices[0].message.content`: `KeyError`. -/
  | missing_reply_field
  /-- 2xx with the reply field present. -/
  | success (content : String)
  deriving Repr, DecidableEq

/-- `ask_groq`: the reply text on success; every `except` branch shows an
error and returns `None`. -/
def ask_groq : GatewayOutcome → Option String
  | .success content => some content
  | .transport_failure => none
  | .http_error _ _ => none
  | .missing_reply_field => none

/-- One chat turn: the user message is appended unconditionally; the
assistant reply is appended only when `if response:` is taken — Python
truthiness, so `None` AND the empty string both skip the append. -/
def chat_turn (history : List ChatMessage) (user_input : String)
    (outcome : GatewayOutcome) : List ChatMessage :=
  let history1 := history ++ [⟨"user", user_input⟩]
  match ask_groq outcome with
  | some response =>
      if response.isEmpty then history1
      else history1 ++ [⟨"assistant", response⟩]
  | none => history1

/-- C7 counterexample: a SUCCESSFUL gateway call whose reply is the empty
string appends no assistant message (the `if response:` truthiness test
fails on `""`), refuting the claim that every successful call appends the
assistant reply. -/
theorem chat_turn_empty_reply_counterexample :
    chat_turn [] "hi" (GatewayOutcome.success "")
      ≠ [⟨"user", "hi"⟩, ⟨"assistant", ""⟩] ∧
    chat_turn [] "hi" (GatewayOutcome.success "") = [⟨"user", "hi"⟩] := by
  decide

/-- C7 amended: on any failed gateway call (transport/timeout failure,
non-2xx status, or missing reply field) no assistant message is appended
while the user's message is still recorded; on a successful call with a
non-empty reply exactly the user message and then the assistant reply are
appended, in that order; a successful call with an empty-string reply is
treated like a failure (only the user message is recorded). -/
theorem chat_turn_history_update (history : List ChatMessage)
    (user_input : String) :
    (∀ outcome : GatewayOutcome, ask_groq outcome = none →
      chat_turn history user_input outcome
        = history ++ [⟨"user", user_input⟩])
    ∧ (∀ status : Nat, ∀ body : String,
        ask_groq GatewayOutcome.transport_failure = none
        ∧ ask_groq (GatewayOutcome.http_error status body) = none
        ∧ ask_groq GatewayOutcome.missing_reply_field = none)
    ∧ (∀ content : String, content ≠ "" →
        chat_turn history user_input (GatewayOutcome.success content)
          = history ++ [⟨"user", user_input⟩, ⟨"assistant", content⟩])
    ∧ chat_turn history user_input (GatewayOutcome.success "")
        = history ++ [⟨"user", user_input⟩] := by
  refine ⟨fun outcome h => ?_, fun status body => ⟨rfl, rfl, rfl⟩,
    fun content h => ?_, rfl⟩
  · simp only [chat_turn, h]
  · have hne : content.isEmpty = false := by
      rcases hc : content.isEmpty with _ | _
      · rfl
      · exact absurd ((String.isEmpty_iff content).mp hc) h
    simp [chat_turn, ask_groq, hne]

/-- Witness for the amended C7: a transport failure records only the user
message; a successful call with reply "ok" records user then assistant. -/
theorem chat_turn_history_update_witness :
    ask_groq GatewayOutcome.transport_failure = none ∧
    chat_turn [] "hi" GatewayOutcome.transport_failure = [⟨"user", "hi"⟩] ∧
    ("ok" : String) ≠ "" ∧
    chat_turn [] "hi" (GatewayOutcome.success "ok")
      = [⟨"user", "hi"⟩, ⟨"assistant", "ok"⟩] :=
  ⟨rfl,
   (chat_turn_history_update [] "hi").1 GatewayOutcome.transport_failure rfl,
   by decide,
   (chat_turn_history_update [] "hi").2.2.1 "ok" (by decide)⟩

/-! ### PDF extraction and the analyze-report flow -/

/-- An uploaded PDF as `extract_text_from_pdf` can observe it: opening the
document (`PyPDF2.PdfReader`) may raise, and each page's `extract_text()`
may raise (`Except.error`), return `None` (mapped to `""` by `or ""`), or
return its text. -/
structure PdfUpload where
  open_ok : Bool
  pages : List (Except Unit (Option String))
  deriving Repr

/-- The page loop of `extract_text_from_pdf`: text accumulates page by page
until a page raises; the `except` branch shows an error and the function
returns the text accumulated so far.  Result: (text, error_shown). -/
def extract_pages (acc : String) :
    List (Except Unit (Option String)) → String × Bool
  | [] => (acc, false)
  | Except.error _ :: _ => (acc, true)
  | Except.ok t :: rest => extract_pages (acc ++ t.getD "") rest

/-- `extract_text_from_pdf`: the whole body is inside one `try`, so a failure
to open the document returns `("", error shown)`. -/
def extract_text_from_pdf (doc : PdfUpload) : String × Bool :=
  if doc.open_ok then extract_pages "" doc.pages else ("", true)

/-- Python truthiness of `text.strip()`: true iff stripping all leading and
trailing whitespace leaves a non-empty string, i.e. iff the text contains a
non-whitespace character. -/
def strip_truthy (text : String) : Bool :=
  text.data.any (fun c => !c.isWhitespace)

/-- The analyze-report flow gates the gateway call on `if text.strip():`,
so the analysis is attempted iff the extracted text contains a
non-whitespace character. -/
def analysis_attempted (doc : PdfUpload) : Bool :=
  strip_truthy (extract_text_from_pdf doc).1

/-- C8 counterexample: a document whose first page yields "abc" and whose
second page raises mid-extraction: the extraction error is surfaced, yet the
gateway analysis IS attempted (on the partial text), refuting the claim that
the analysis call is made only when extraction succeeds. -/
theorem extraction_failure_counterexample :
    (extract_text_from_pdf
      ⟨true, [Except.ok (some "abc"), Except.error ()]⟩).2 = true ∧
    analysis_attempted
      ⟨true, [Except.ok (some "abc"), Except.error ()]⟩ = true := by
  exact ⟨rfl, by decide⟩

/-- C8 amended: when the document cannot be opened at all, an error is
surfaced, the extracted text is empty, and no analysis is attempted; in
general the gateway call is made iff the (possibly partial) extracted text
contains non-whitespace — a mid-extraction failure after some text was
already extracted still leads to an analysis attempt on the partial text. -/
theorem extraction_failure_gating (doc : PdfUpload)
    (h : doc.open_ok = false) :
    ((extract_text_from_pdf doc).2 = true
      ∧ (extract_text_from_pdf doc).1 = ""
      ∧ analysis_attempted doc = false)
    ∧ (∀ d : PdfUpload,
        analysis_attempted d = strip_truthy (extract_text_from_pdf d).1) := by
  refine ⟨?_, fun d => rfl⟩
  rw [analysis_attempted]
  simp [extract_text_from_pdf, h]
  decide

/-- Witness for the amended C8 at a document that fails to open. -/
theorem extraction_failure_gating_witness :
    (⟨false, []⟩ : PdfUpload).open_ok = false ∧
    ((extract_text_from_pdf ⟨false, []⟩).2 = true
      ∧ (extract_text_from_pdf ⟨false, []⟩).1 = ""
      ∧ analysis_attempted (⟨false, []⟩ : PdfUpload) = false) :=
  ⟨rfl, (extraction_failure_gating ⟨false, []⟩ rfl).1⟩

end StreamlitApp
